import Mathlib

/-!
Shallow embedding of the redmine_api Rust crate (a typed client for the
Redmine REST API).  Pure data flow is transcribed directly; the single
network round trip every transport operation performs is made explicit by
passing the outcome of that round trip (`NetOutcome`) as an argument, and
the request each operation would send is computed by a companion
`...Request` function.  Source files: src/lib.rs, src/issues.rs,
src/users.rs.
-/

/-- JSON values, as produced by serde serialization of the builders.
Floating point fields (estimated_hours : f32) only ever flow from a setter
argument into the serialized payload, so their values are modelled as
rationals. -/
inductive Json where
  | null : Json
  | bool (b : Bool) : Json
  | num (q : Rat) : Json
  | str (s : String) : Json
  | arr (xs : List Json) : Json
  | obj (fields : List (String × Json)) : Json
deriving Repr

/-- HTTP method of a request issued by the client. -/
inductive Method where
  | GET | POST | PUT | DELETE
deriving DecidableEq, Repr

/-- The URL a transport operation targets: `base` is `host ++ path` as
concatenated by `RedmineClient::get_base_url`, `query` the query pairs in
the order they are appended (`key` first, then any filter parameters). -/
structure ReqUrl where
  base : String
  query : List (String × String)
deriving DecidableEq, Repr

/-- A request as assembled by the transport layer. -/
structure Request where
  method : Method
  url : ReqUrl
  headers : List (String × String)
  body : Option Json
deriving Repr

/-- An HTTP response as seen by the client: status code, body text, and
the optional Location header (the only header the code reads). -/
structure HttpResponse where
  status : Nat
  body : String
  location : Option String
deriving Repr

/-- Outcome of the one network round trip: either a transport-level
failure (DNS, connection, TLS — reqwest returns Err) or a response of any
HTTP status. -/
inductive NetOutcome where
  | failure (msg : String) : NetOutcome
  | response (r : HttpResponse) : NetOutcome
deriving Repr

/-- Error taxonomy of the crate (error-chain messages, by what data each
bail site embeds): `networkError` wraps a reqwest/io failure,
`apiError` is the create/update bail carrying status and response body,
`statusOnlyError` is the delete/watcher bail carrying just the status, and
`protocolError` is the create bail on a 2xx response missing its Location
header. -/
inductive TransportError where
  | networkError (msg : String) : TransportError
  | apiError (status : Nat) (body : String) : TransportError
  | statusOnlyError (status : Nat) : TransportError
  | protocolError : TransportError
deriving DecidableEq, Repr

/-- reqwest `StatusCode::is_success()`: 2xx. -/
def statusIsSuccess (s : Nat) : Bool :=
  decide (200 ≤ s) && decide (s < 300)

/-- `RedmineClient` from src/lib.rs: the transport, owning host and api key. -/
structure RedmineClient where
  host : String
  apikey : String
deriving DecidableEq, Repr

/-- `RedmineClient::get_base_url`: concatenates host and path and appends
the api key as the query pair `key=<apikey>`. -/
def RedmineClient.get_base_url (c : RedmineClient) (path : String) : ReqUrl :=
  { base := c.host ++ path, query := [("key", c.apikey)] }

/-- The GET request built by `RedmineClient::get`: filter parameters are
appended to the query after the key; no headers, no body. -/
def RedmineClient.getRequest (c : RedmineClient) (path : String)
    (params : List (String × String)) : Request :=
  { method := Method.GET
    url := { c.get_base_url path with
             query := (c.get_base_url path).query ++ params }
    headers := []
    body := none }

/-- Result of `RedmineClient::get` given the round-trip outcome: a reqwest
failure is chained into an error; any response, whatever its status, has
its body read to a string and returned. -/
def RedmineClient.get (c : RedmineClient) (path : String)
    (params : List (String × String)) (out : NetOutcome) :
    Except TransportError String :=
  match out with
  | NetOutcome.failure m => Except.error (TransportError.networkError m)
  | NetOutcome.response r => Except.ok r.body

/-- The POST request built by `RedmineClient::post` (used by `create`):
json body, hence a json content type header. -/
def RedmineClient.createRequest (c : RedmineClient) (path : String)
    (payload : Json) : Request :=
  { method := Method.POST
    url := c.get_base_url path
    headers := [("Content-Type", "application/json")]
    body := some payload }

/-- Result of `RedmineClient::create`: on non-2xx it bails with the status
and the response body; on 2xx it returns the Location header value, or
bails if that header is absent. -/
def RedmineClient.create (c : RedmineClient) (path : String)
    (payload : Json) (out : NetOutcome) : Except TransportError String :=
  match out with
  | NetOutcome.failure m => Except.error (TransportError.networkError m)
  | NetOutcome.response r =>
    if statusIsSuccess r.status then
      match r.location with
      | some l => Except.ok l
      | none => Except.error TransportError.protocolError
    else
      Except.error (TransportError.apiError r.status r.body)

/-- The PUT request built by `RedmineClient::update`. -/
def RedmineClient.updateRequest (c : RedmineClient) (path : String)
    (payload : Json) : Request :=
  { method := Method.PUT
    url := c.get_base_url path
    headers := [("Content-Type", "application/json")]
    body := some payload }

/-- Result of `RedmineClient::update`: on non-2xx it bails with status and
body; on any 2xx it returns the literal string Success. -/
def RedmineClient.update (c : RedmineClient) (path : String)
    (payload : Json) (out : NetOutcome) : Except TransportError String :=
  match out with
  | NetOutcome.failure m => Except.error (TransportError.networkError m)
  | NetOutcome.response r =>
    if statusIsSuccess r.status then Except.ok "Success"
    else Except.error (TransportError.apiError r.status r.body)

/-- The DELETE request built by `RedmineClient::delete`. -/
def RedmineClient.deleteRequest (c : RedmineClient) (path : String) :
    Request :=
  { method := Method.DELETE
    url := c.get_base_url path
    headers := []
    body := none }

/-- Result of `RedmineClient::delete`: true on 2xx, otherwise a bail
carrying only the status. -/
def RedmineClient.delete (c : RedmineClient) (path : String)
    (out : NetOutcome) : Except TransportError Bool :=
  match out with
  | NetOutcome.failure m => Except.error (TransportError.networkError m)
  | NetOutcome.response r =>
    if statusIsSuccess r.status then Except.ok true
    else Except.error (TransportError.statusOnlyError r.status)

/-- `IssueFilter` from src/issues.rs: accumulator of optional query
constraints for the issue list operation. -/
structure IssueFilter where
  client : RedmineClient
  assigned_to_id : Option Nat
  issue_id : List Nat
  parent_id : Option Nat
  project_id : Option Nat
  status_id : Option Nat
  subproject_id : Option Nat
  tracker_id : Option Nat
deriving Repr

/-- `IssueFilter::new` (the struct update `..Default::default()`). -/
def IssueFilter.new (client : RedmineClient) : IssueFilter :=
  { client := client
    assigned_to_id := none
    issue_id := []
    parent_id := none
    project_id := none
    status_id := none
    subproject_id := none
    tracker_id := none }

/-- `IssueFilter::assigned_to_id` setter (named `set_` because the Rust
method shares its name with the field, which Lean does not allow). -/
def IssueFilter.set_assigned_to_id (f : IssueFilter) (id : Nat) :
    IssueFilter :=
  { f with assigned_to_id := some id }

/-- `IssueFilter::issue_id` setter: pushes one id onto the vector. -/
def IssueFilter.set_issue_id (f : IssueFilter) (id : Nat) : IssueFilter :=
  { f with issue_id := f.issue_id ++ [id] }

/-- `IssueFilter::issue_ids` setter: extends the vector with all ids. -/
def IssueFilter.issue_ids (f : IssueFilter) (ids : List Nat) :
    IssueFilter :=
  { f with issue_id := f.issue_id ++ ids }

/-- `IssueFilter::parent_id` setter. -/
def IssueFilter.set_parent_id (f : IssueFilter) (id : Nat) : IssueFilter :=
  { f with parent_id := some id }

/-- `IssueFilter::project_id` setter. -/
def IssueFilter.set_project_id (f : IssueFilter) (id : Nat) : IssueFilter :=
  { f with project_id := some id }

/-- `IssueFilter::status_id` setter. -/
def IssueFilter.set_status_id (f : IssueFilter) (id : Nat) : IssueFilter :=
  { f with status_id := some id }

/-- `IssueFilter::subproject_id` setter. -/
def IssueFilter.set_subproject_id (f : IssueFilter) (id : Nat) :
    IssueFilter :=
  { f with subproject_id := some id }

/-- `IssueFilter::tracker_id` setter. -/
def IssueFilter.set_tracker_id (f : IssueFilter) (id : Nat) : IssueFilter :=
  { f with tracker_id := some id }

/-- Helper mirroring the `if let Some(id) ... params.insert` lines. -/
def optQueryParam (name : String) (v : Option Nat) : List (String × String) :=
  match v with
  | none => []
  | some id => [(name, toString id)]

/-- The query parameter map `IssueFilter::execute` builds (an association
list; the keys inserted are pairwise distinct, so the HashMap it models
holds exactly these pairs).  A non-empty id vector becomes one
comma-joined decimal string under `issue_id`. -/
def IssueFilter.params (f : IssueFilter) : List (String × String) :=
  optQueryParam "assigned_to_id" f.assigned_to_id ++
  (if f.issue_id.length > 0 then
    [("issue_id", String.intercalate "," (f.issue_id.map toString))]
  else []) ++
  optQueryParam "parent_id" f.parent_id ++
  optQueryParam "project_id" f.project_id ++
  optQueryParam "status_id" f.status_id ++
  optQueryParam "subproject_id" f.subproject_id ++
  optQueryParam "tracker_id" f.tracker_id

/-- The GET request `IssueFilter::execute` hands to the transport. -/
def IssueFilter.request (f : IssueFilter) : Request :=
  f.client.getRequest "/issues.json" f.params

/-- Raw transport result of `IssueFilter::execute` (before json parsing):
`client.get` on `/issues.json` with the filter parameters. -/
def IssueFilter.executeRaw (f : IssueFilter) (out : NetOutcome) :
    Except TransportError String :=
  f.client.get "/issues.json" f.params out

/-- `IssueBuilderKind` from src/issues.rs (`Default` is `Create`). -/
inductive IssueBuilderKind where
  | Create | Update
deriving DecidableEq, Repr

/-- `IssueBuilder` from src/issues.rs: write builder for issue creation
and update.  Field order and serde attributes follow the source: every
`Option` field is skipped when `none`, every string field when empty, the
watcher vector when empty; `is_private` and `private_notes` carry no skip
attribute and are always serialized. -/
structure IssueBuilder where
  client : RedmineClient
  kind : IssueBuilderKind
  project_id : Option Nat
  tracker_id : Option Nat
  status_id : Option Nat
  priority_id : Option Nat
  subject : String
  description : String
  category_id : Option Nat
  fixed_version_id : Option Nat
  assigned_to_id : Option Nat
  parent_issue_id : Option Nat
  watcher_user_ids : List Nat
  is_private : Bool
  estimated_hours : Option Rat
  update_id : Nat
  notes : String
  private_notes : Bool
deriving Repr

/-- The `Default::default()` value of `IssueBuilder` with a given client
(derive(Default): every Option none, strings empty, vector empty,
booleans false, ids zero, kind Create). -/
def IssueBuilder.base (client : RedmineClient) : IssueBuilder :=
  { client := client
    kind := IssueBuilderKind.Create
    project_id := none
    tracker_id := none
    status_id := none
    priority_id := none
    subject := ""
    description := ""
    category_id := none
    fixed_version_id := none
    assigned_to_id := none
    parent_issue_id := none
    watcher_user_ids := []
    is_private := false
    estimated_hours := none
    update_id := 0
    notes := ""
    private_notes := false }

/-- `IssueBuilder::for_create`: pre-populates the four mandatory ids and
the subject, tags the builder as Create, leaves the rest at default. -/
def IssueBuilder.for_create (client : RedmineClient)
    (project_id tracker_id status_id priority_id : Nat)
    (subject : String) : IssueBuilder :=
  { IssueBuilder.base client with
    kind := IssueBuilderKind.Create
    project_id := some project_id
    tracker_id := some tracker_id
    status_id := some status_id
    priority_id := some priority_id
    subject := subject }

/-- `IssueBuilder::for_update`: pre-populates only the target id, tags the
builder as Update, leaves every other field at default. -/
def IssueBuilder.for_update (client : RedmineClient) (id : Nat) :
    IssueBuilder :=
  { IssueBuilder.base client with
    kind := IssueBuilderKind.Update
    update_id := id }

/-- `IssueBuilder::project_id` setter (named `set_` because the Rust
method shares its name with the field). -/
def IssueBuilder.set_project_id (b : IssueBuilder) (id : Nat) :
    IssueBuilder :=
  { b with project_id := some id }

/-- `IssueBuilder::tracker_id` setter. -/
def IssueBuilder.set_tracker_id (b : IssueBuilder) (id : Nat) :
    IssueBuilder :=
  { b with tracker_id := some id }

/-- `IssueBuilder::status_id` setter. -/
def IssueBuilder.set_status_id (b : IssueBuilder) (id : Nat) :
    IssueBuilder :=
  { b with status_id := some id }

/-- `IssueBuilder::priority_id` setter. -/
def IssueBuilder.set_priority_id (b : IssueBuilder) (id : Nat) :
    IssueBuilder :=
  { b with priority_id := some id }

/-- `IssueBuilder::subject` setter. -/
def IssueBuilder.set_subject (b : IssueBuilder) (s : String) :
    IssueBuilder :=
  { b with subject := s }

/-- `IssueBuilder::description` setter. -/
def IssueBuilder.set_description (b : IssueBuilder) (s : String) :
    IssueBuilder :=
  { b with description := s }

/-- `IssueBuilder::category_id` setter. -/
def IssueBuilder.set_category_id (b : IssueBuilder) (id : Nat) :
    IssueBuilder :=
  { b with category_id := some id }

/-- `IssueBuilder::fixed_version_id` setter. -/
def IssueBuilder.set_fixed_version_id (b : IssueBuilder) (id : Nat) :
    IssueBuilder :=
  { b with fixed_version_id := some id }

/-- `IssueBuilder::assigned_to_id` setter. -/
def IssueBuilder.set_assigned_to_id (b : IssueBuilder) (id : Nat) :
    IssueBuilder :=
  { b with assigned_to_id := some id }

/-- `IssueBuilder::parent_issue_id` setter. -/
def IssueBuilder.set_parent_issue_id (b : IssueBuilder) (id : Nat) :
    IssueBuilder :=
  { b with parent_issue_id := some id }

/-- `IssueBuilder::watcher_user_ids` setter: assigns the given vector,
replacing whatever the field held. -/
def IssueBuilder.set_watcher_user_ids (b : IssueBuilder) (ids : List Nat) :
    IssueBuilder :=
  { b with watcher_user_ids := ids }

/-- `IssueBuilder::add_watcher_user_id`: pushes one id onto the vector. -/
def IssueBuilder.add_watcher_user_id (b : IssueBuilder) (id : Nat) :
    IssueBuilder :=
  { b with watcher_user_ids := b.watcher_user_ids ++ [id] }

/-- `IssueBuilder::is_private` setter. -/
def IssueBuilder.set_is_private (b : IssueBuilder) (v : Bool) :
    IssueBuilder :=
  { b with is_private := v }

/-- `IssueBuilder::estimated_hours` setter. -/
def IssueBuilder.set_estimated_hours (b : IssueBuilder) (eh : Rat) :
    IssueBuilder :=
  { b with estimated_hours := some eh }

/-- `IssueBuilder::notes` setter. -/
def IssueBuilder.set_notes (b : IssueBuilder) (n : String) : IssueBuilder :=
  { b with notes := n }

/-- `IssueBuilder::private_notes` setter. -/
def IssueBuilder.set_private_notes (b : IssueBuilder) (v : Bool) :
    IssueBuilder :=
  { b with private_notes := v }

/-- serde field with `skip_serializing_if = "Option::is_none"` over u32. -/
def optNatField (name : String) (v : Option Nat) : List (String × Json) :=
  match v with
  | none => []
  | some n => [(name, Json.num (n : Rat))]

/-- serde field with `skip_serializing_if = "Option::is_none"` over f32. -/
def optRatField (name : String) (v : Option Rat) : List (String × Json) :=
  match v with
  | none => []
  | some q => [(name, Json.num q)]

/-- serde field with `skip_serializing_if = "str::is_empty"`. -/
def strField (name : String) (s : String) : List (String × Json) :=
  if s = "" then [] else [(name, Json.str s)]

/-- serde serialization of `IssueBuilder` (derive(Serialize) with the skip
attributes of the source, fields in declaration order; `client`, `kind`
and `update_id` are `skip_serializing`; `is_private` and `private_notes`
have no skip attribute). -/
def IssueBuilder.serialize (b : IssueBuilder) : Json :=
  Json.obj (
    optNatField "project_id" b.project_id ++
    optNatField "tracker_id" b.tracker_id ++
    optNatField "status_id" b.status_id ++
    optNatField "priority_id" b.priority_id ++
    strField "subject" b.subject ++
    strField "description" b.description ++
    optNatField "category_id" b.category_id ++
    optNatField "fixed_version_id" b.fixed_version_id ++
    optNatField "assigned_to_id" b.assigned_to_id ++
    optNatField "parent_issue_id" b.parent_issue_id ++
    (if b.watcher_user_ids.isEmpty then []
     else [("watcher_user_ids",
            Json.arr (b.watcher_user_ids.map (fun n => Json.num (n : Rat))))]) ++
    [("is_private", Json.bool b.is_private)] ++
    optRatField "estimated_hours" b.estimated_hours ++
    strField "notes" b.notes ++
    [("private_notes", Json.bool b.private_notes)])

/-- Serialization of `IssueBuilderWrapper`: the singular-key envelope
around the builder payload. -/
def IssueBuilder.wrapped (b : IssueBuilder) : Json :=
  Json.obj [("issue", b.serialize)]

/-- The path `IssueBuilder::execute` dispatches to: the resource path for
Create, the resource path with the id appended for Update. -/
def IssueBuilder.path (b : IssueBuilder) : String :=
  match b.kind with
  | IssueBuilderKind.Create => "/issues.json"
  | IssueBuilderKind.Update => "/issues/" ++ toString b.update_id ++ ".json"

/-- The request `IssueBuilder::execute` hands to the transport: POST via
`create` for the Create variant, PUT via `update` for the Update variant,
body the enveloped payload. -/
def IssueBuilder.request (b : IssueBuilder) : Request :=
  match b.kind with
  | IssueBuilderKind.Create => b.client.createRequest b.path b.wrapped
  | IssueBuilderKind.Update => b.client.updateRequest b.path b.wrapped

/-- Result of `IssueBuilder::execute` given the round-trip outcome. -/
def IssueBuilder.execute (b : IssueBuilder) (out : NetOutcome) :
    Except TransportError String :=
  match b.kind with
  | IssueBuilderKind.Create => b.client.create b.path b.wrapped out
  | IssueBuilderKind.Update => b.client.update b.path b.wrapped out

/-- `UserFilter` from src/users.rs: the users list filter.  The struct
holds only the client — it exposes no filter setters at all. -/
structure UserFilter where
  client : RedmineClient
deriving Repr

/-- `UserFilter::new`. -/
def UserFilter.new (client : RedmineClient) : UserFilter :=
  { client := client }

/-- The query parameter map `UserFilter::execute` builds:
`HashMap::new()`, i.e. empty. -/
def UserFilter.params (f : UserFilter) : List (String × String) := []

/-- The GET request `UserFilter::execute` hands to the transport. -/
def UserFilter.request (f : UserFilter) : Request :=
  f.client.getRequest "/users.json" f.params

/-- Raw transport result of `UserFilter::execute` (before json parsing). -/
def UserFilter.executeRaw (f : UserFilter) (out : NetOutcome) :
    Except TransportError String :=
  f.client.get "/users.json" f.params out

/-- The resource kinds named by the crate (issue, project, time entry,
user source modules exist as files; only some are wired to the facade). -/
inductive ResourceKind where
  | issue | project | timeEntry | user
deriving DecidableEq, Repr

/-- `issues::Api` from src/issues.rs. -/
structure IssuesApi where
  client : RedmineClient
deriving Repr

/-- `time_entries::Api` from src/time_entries.rs. -/
structure TimeEntriesApi where
  client : RedmineClient
deriving Repr

/-- `RedmineApi` from src/lib.rs: the facade.  Its fields are exactly the
resource APIs the struct declares — `issues` and `time_entries`; the crate
root declares only the modules `errors`, `issues` and `time_entries`, so
no project or user accessor exists on the facade. -/
structure RedmineApi where
  issues : IssuesApi
  time_entries : TimeEntriesApi
deriving Repr

/-- `RedmineApi::new`: builds one client from host and api key and hands
the shared client to each resource API. -/
def RedmineApi.new (host apikey : String) : RedmineApi :=
  { issues := { client := { host := host, apikey := apikey } }
    time_entries := { client := { host := host, apikey := apikey } } }

/-- The resource kinds for which the facade exposes an accessor, one per
field of `RedmineApi`, in declaration order. -/
def RedmineApi.exposedKinds : List ResourceKind :=
  [ResourceKind.issue, ResourceKind.timeEntry]

/-- `issues::Api::list`. -/
def IssuesApi.list (a : IssuesApi) : IssueFilter :=
  IssueFilter.new a.client

/-- `issues::Api::create`. -/
def IssuesApi.create (a : IssuesApi)
    (project_id tracker_id status_id priority_id : Nat)
    (subject : String) : IssueBuilder :=
  IssueBuilder.for_create a.client project_id tracker_id status_id
    priority_id subject

/-- `issues::Api::update`. -/
def IssuesApi.update (a : IssuesApi) (id : Nat) : IssueBuilder :=
  IssueBuilder.for_update a.client id

/-- C1: the Transport create operation fails with an ApiError carrying
status and body on every non-2xx response; on a 2xx response it returns
the Location header value and fails with a ProtocolError when that header
is absent; in particular the end-to-end issue create against a 201
response with Location /issues/42.json yields /issues/42.json. -/
theorem create_contract (c : RedmineClient) (path : String) (payload : Json)
    (r1 r2 r3 : HttpResponse) (l : String)
    (h1 : statusIsSuccess r1.status = false)
    (h2 : statusIsSuccess r2.status = true) (hl : r2.location = some l)
    (h3 : statusIsSuccess r3.status = true) (hn : r3.location = none) :
    c.create path payload (NetOutcome.response r1)
      = Except.error (TransportError.apiError r1.status r1.body) ∧
    c.create path payload (NetOutcome.response r2) = Except.ok l ∧
    c.create path payload (NetOutcome.response r3)
      = Except.error TransportError.protocolError ∧
    ((((IssueBuilder.for_create c 1 1 1 1 "subject").set_is_private
        true).set_estimated_hours (17 / 5)).execute
      (NetOutcome.response
        { status := 201, body := "", location := some "/issues/42.json" }))
      = Except.ok "/issues/42.json" := by
  refine ⟨?_, ?_, ?_, rfl⟩
  · simp [RedmineClient.create, h1]
  · simp [RedmineClient.create, h2, hl]
  · simp [RedmineClient.create, h3, hn]

/-- Witness for C1 at concrete responses: 404 with body, 201 with
Location, 201 without Location. -/
theorem create_contract_witness :
    statusIsSuccess 404 = false ∧ statusIsSuccess 201 = true ∧
    RedmineClient.create { host := "h", apikey := "k" } "/issues.json"
      Json.null
      (NetOutcome.response { status := 404, body := "nf", location := none })
      = Except.error (TransportError.apiError 404 "nf") ∧
    RedmineClient.create { host := "h", apikey := "k" } "/issues.json"
      Json.null
      (NetOutcome.response
        { status := 201, body := "", location := some "/issues/42.json" })
      = Except.ok "/issues/42.json" ∧
    RedmineClient.create { host := "h", apikey := "k" } "/issues.json"
      Json.null
      (NetOutcome.response { status := 201, body := "", location := none })
      = Except.error TransportError.protocolError ∧
    ((((IssueBuilder.for_create { host := "h", apikey := "k" } 1 1 1 1
        "subject").set_is_private true).set_estimated_hours (17 / 5)).execute
      (NetOutcome.response
        { status := 201, body := "", location := some "/issues/42.json" }))
      = Except.ok "/issues/42.json" := by
  obtain ⟨ha, hb, hc, hd⟩ :=
    create_contract { host := "h", apikey := "k" } "/issues.json" Json.null
      { status := 404, body := "nf", location := none }
      { status := 201, body := "", location := some "/issues/42.json" }
      { status := 201, body := "", location := none }
      "/issues/42.json" (by decide) (by decide) rfl (by decide) rfl
  exact ⟨by decide, by decide, ha, hb, hc, hd⟩

/-- C2: the Update builder constructed by for_update with no other setter
dispatches PUT to /issues/(id).json and its serialized payload omits every
omittable field, leaving only the default-only envelope with the two
non-omittable booleans at false — no unset optional field is sent. -/
theorem for_update_default_payload (c : RedmineClient) (id : Nat) :
    (IssueBuilder.for_update c id).wrapped
      = Json.obj [("issue",
          Json.obj [("is_private", Json.bool false),
                    ("private_notes", Json.bool false)])] ∧
    (IssueBuilder.for_update c id).request
      = c.updateRequest ("/issues/" ++ toString id ++ ".json")
          (IssueBuilder.for_update c id).wrapped ∧
    (IssueBuilder.for_update c id).request.method = Method.PUT ∧
    (IssueBuilder.for_update c id).request.url.base
      = c.host ++ "/issues/" ++ toString id ++ ".json" ∧
    (IssueBuilder.for_update c id).execute
      = c.update ("/issues/" ++ toString id ++ ".json")
          (IssueBuilder.for_update c id).wrapped := by
  refine ⟨?_, rfl, rfl, ?_, rfl⟩
  · simp [IssueBuilder.wrapped, IssueBuilder.serialize, IssueBuilder.for_update,
          IssueBuilder.base, optNatField, optRatField, strField]
  · simp [IssueBuilder.request, IssueBuilder.for_update, IssueBuilder.base,
          IssueBuilder.path, RedmineClient.updateRequest,
          RedmineClient.get_base_url, String.append_assoc]

/-- C3: id-list filter setters accumulate across calls (append, never
overwrite), and the executed query carries one comma-joined issue_id
parameter; issue_id 1 then issue_ids [2, 3] yields the pair
issue_id=1,2,3 in the query. -/
theorem issue_filter_id_accumulation (c : RedmineClient) (f : IssueFilter)
    (i : Nat) (ids ids2 : List Nat) :
    ((f.set_issue_id i).issue_ids ids).issue_id = f.issue_id ++ i :: ids ∧
    ((f.issue_ids ids).issue_ids ids2).issue_id
      = f.issue_id ++ ids ++ ids2 ∧
    (((IssueFilter.new c).set_issue_id 1).issue_ids [2, 3]).params
      = [("issue_id", "1,2,3")] ∧
    (((IssueFilter.new c).set_issue_id 1).issue_ids [2, 3]).request.url.query
      = [("key", c.apikey), ("issue_id", "1,2,3")] := by
  refine ⟨?_, ?_, rfl, rfl⟩
  · simp [IssueFilter.set_issue_id, IssueFilter.issue_ids]
  · simp [IssueFilter.issue_ids, List.append_assoc]

/-- C4 counterexample: calling the watcher_user_ids setter twice with
disjoint lists does not accumulate — the second call overwrites, so the
stored collection is [2, 3], not [1, 2, 3]. -/
theorem watcher_setter_overwrite_cex :
    (((IssueBuilder.for_update { host := "h", apikey := "k" }
        1).set_watcher_user_ids [1]).set_watcher_user_ids
        [2, 3]).watcher_user_ids = [2, 3] ∧
    ¬ (((IssueBuilder.for_update { host := "h", apikey := "k" }
        1).set_watcher_user_ids [1]).set_watcher_user_ids
        [2, 3]).watcher_user_ids = [1, 2, 3] := by
  exact ⟨rfl, by decide⟩

/-- C4 amended: scalar setters are last-call-wins; the single-element
add_watcher_user_id setter appends, so two calls store the first then the
second id; the list-valued watcher_user_ids setter assigns, so its last
call wins as for scalars. -/
theorem setter_last_wins_add_watcher_appends (b : IssueBuilder)
    (v1 v2 : Bool) (q1 q2 : Rat) (i j : Nat) (l1 l2 : List Nat) :
    ((b.set_is_private v1).set_is_private v2).is_private = v2 ∧
    ((b.set_private_notes v1).set_private_notes v2).private_notes = v2 ∧
    ((b.set_estimated_hours q1).set_estimated_hours q2).estimated_hours
      = some q2 ∧
    ((b.set_status_id i).set_status_id j).status_id = some j ∧
    ((b.add_watcher_user_id i).add_watcher_user_id j).watcher_user_ids
      = b.watcher_user_ids ++ [i, j] ∧
    ((b.set_watcher_user_ids l1).set_watcher_user_ids l2).watcher_user_ids
      = l2 := by
  refine ⟨rfl, rfl, rfl, rfl, ?_, rfl⟩
  simp [IssueBuilder.add_watcher_user_id]

/-- C5: a Create issue builder given only the four required ids and a
non-empty subject serializes, inside the singular issue envelope, to
exactly the keys project_id, tracker_id, status_id, priority_id, subject
plus the non-omittable boolean defaults is_private=false and
private_notes=false, and no other keys. -/
theorem for_create_serialization (c : RedmineClient)
    (p t s pr : Nat) (subj : String) (h : subj ≠ "") :
    (IssueBuilder.for_create c p t s pr subj).wrapped
      = Json.obj [("issue", Json.obj
          [("project_id", Json.num (p : Rat)),
           ("tracker_id", Json.num (t : Rat)),
           ("status_id", Json.num (s : Rat)),
           ("priority_id", Json.num (pr : Rat)),
           ("subject", Json.str subj),
           ("is_private", Json.bool false),
           ("private_notes", Json.bool false)])] := by
  simp [IssueBuilder.wrapped, IssueBuilder.serialize, IssueBuilder.for_create,
        IssueBuilder.base, optNatField, optRatField, strField, h]

/-- Witness for C5 at a concrete subject and ids. -/
theorem for_create_serialization_witness :
    ("subject" : String) ≠ "" ∧
    (IssueBuilder.for_create { host := "h", apikey := "k" } 1 2 3 4
        "subject").wrapped
      = Json.obj [("issue", Json.obj
          [("project_id", Json.num ((1 : Nat) : Rat)),
           ("tracker_id", Json.num ((2 : Nat) : Rat)),
           ("status_id", Json.num ((3 : Nat) : Rat)),
           ("priority_id", Json.num ((4 : Nat) : Rat)),
           ("subject", Json.str "subject"),
           ("is_private", Json.bool false),
           ("private_notes", Json.bool false)])] :=
  ⟨by decide,
   for_create_serialization { host := "h", apikey := "k" } 1 2 3 4 "subject"
     (by decide)⟩

/-- C6: the Transport get operation fails only on transport-level failure;
given a response of any HTTP status whatsoever it succeeds and returns the
raw body text unchanged. -/
theorem get_status_blind (c : RedmineClient) (path : String)
    (params : List (String × String)) (r : HttpResponse) (m : String) :
    c.get path params (NetOutcome.response r) = Except.ok r.body ∧
    c.get path params (NetOutcome.failure m)
      = Except.error (TransportError.networkError m) :=
  ⟨rfl, rfl⟩

/-- C7: every transport request carries the api key as the query pair
key=(apikey) and its header list holds no key header (GET and DELETE send
no headers, POST and PUT only the json content type); the filtered issue
list request targets host/issues.json with the key and the filter
parameters in the query string. -/
theorem api_key_in_query (c : RedmineClient) (path : String)
    (params : List (String × String)) (payload : Json) :
    ("key", c.apikey) ∈ (c.getRequest path params).url.query ∧
    (c.getRequest path params).headers = [] ∧
    ("key", c.apikey) ∈ (c.createRequest path payload).url.query ∧
    (c.createRequest path payload).headers
      = [("Content-Type", "application/json")] ∧
    ("key", c.apikey) ∈ (c.updateRequest path payload).url.query ∧
    (c.updateRequest path payload).headers
      = [("Content-Type", "application/json")] ∧
    ("key", c.apikey) ∈ (c.deleteRequest path).url.query ∧
    (c.deleteRequest path).headers = [] ∧
    (((IssueFilter.new c).set_issue_id 1).issue_ids [2, 3]).request.url.base
      = c.host ++ "/issues.json" ∧
    (((IssueFilter.new c).set_issue_id 1).issue_ids [2, 3]).request.url.query
      = [("key", c.apikey), ("issue_id", "1,2,3")] := by
  refine ⟨?_, rfl, ?_, rfl, ?_, rfl, ?_, rfl, rfl, rfl⟩ <;>
    simp [RedmineClient.getRequest, RedmineClient.createRequest,
          RedmineClient.updateRequest, RedmineClient.deleteRequest,
          RedmineClient.get_base_url]

/-- C8 counterexample: the facade exposes no accessor for the project or
user resource kinds — its accessor list holds only issue and time entry. -/
theorem facade_missing_project_user_cex :
    ¬ ResourceKind.project ∈ RedmineApi.exposedKinds ∧
    ¬ ResourceKind.user ∈ RedmineApi.exposedKinds := by
  decide

/-- C8 amended: the facade, constructed from a host and API key, exposes
one accessor per wired resource kind, and the wired kinds are exactly
issue and time entry; each accessor returns a resource API bound to the
shared connection. -/
theorem facade_two_accessors (host apikey : String) :
    RedmineApi.exposedKinds
      = [ResourceKind.issue, ResourceKind.timeEntry] ∧
    (RedmineApi.new host apikey).issues.client
      = { host := host, apikey := apikey } ∧
    (RedmineApi.new host apikey).time_entries.client
      = { host := host, apikey := apikey } :=
  ⟨rfl, rfl, rfl⟩

/-- C9: for every payload and path, a 2xx response makes the Transport
update operation return exactly the literal string Success, independent of
the response body and headers. -/
theorem update_success_literal (c : RedmineClient) (path : String)
    (payload : Json) (r : HttpResponse)
    (h : statusIsSuccess r.status = true) :
    c.update path payload (NetOutcome.response r) = Except.ok "Success" := by
  simp [RedmineClient.update, h]

/-- Witness for C9 at a 204 response with a non-empty body and a Location
header, neither of which shows up in the result. -/
theorem update_success_literal_witness :
    statusIsSuccess 204 = true ∧
    RedmineClient.update { host := "h", apikey := "k" } "/issues/1.json"
      Json.null
      (NetOutcome.response
        { status := 204, body := "ignored", location := some "/elsewhere" })
      = Except.ok "Success" :=
  ⟨by decide,
   update_success_literal { host := "h", apikey := "k" } "/issues/1.json"
     Json.null
     { status := 204, body := "ignored", location := some "/elsewhere" }
     (by decide)⟩

/-- C10: the users Filter Builder holds no constraint state (every value
equals the fresh builder over its client), builds an empty parameter map,
and every execution issues a GET to host/users.json whose query holds only
the api key. -/
theorem user_filter_unfiltered (c : RedmineClient) (f : UserFilter)
    (out : NetOutcome) :
    f.params = [] ∧
    f = UserFilter.new f.client ∧
    f.request
      = { method := Method.GET
          url := { base := f.client.host ++ "/users.json"
                   query := [("key", f.client.apikey)] }
          headers := []
          body := none } ∧
    f.executeRaw out = f.client.get "/users.json" [] out ∧
    (UserFilter.new c).request.url.query = [("key", c.apikey)] :=
  ⟨rfl, rfl, rfl, rfl, rfl⟩
